import Mathlib

/-!
Verification development for the `scorer` repository: a blind A/B video-description
scoring pipeline (inference → blind color assignment → rater sampling → score ledger
→ aggregation).  Python sources are shallowly embedded as computable Lean functions;
`random.shuffle`'s draws are modelled as an explicit stream of `_randbelow` results,
and pandas / numpy table operations as functions on lists of row records.
-/

namespace Scorer

/- ### Python string primitives, embedded over `List Char`.
    Inputs in this pipeline are ASCII (model names, color names, UI choice strings). -/

/-- Python `s.split(sep)` for a one-character separator: splits on every occurrence,
keeping empty pieces. -/
def charSplit (sep : Char) : List Char → List (List Char)
  | [] => [[]]
  | c :: rest =>
    if c = sep then
      [] :: charSplit sep rest
    else
      match charSplit sep rest with
      | [] => [[c]]
      | piece :: pieces => (c :: piece) :: pieces

/-- Python `response_text.split('\n')`. -/
def pySplitLines (s : String) : List String :=
  (charSplit '\n' s.data).map String.mk

/-- Python `s.startswith(p)`. -/
def pyStartsWith (s p : String) : Bool :=
  p.data.isPrefixOf s.data

/-- The whitespace characters stripped by Python's `str.strip()`. -/
def isPySpace (c : Char) : Bool :=
  c = ' ' || c = '\t' || c = '\n' || c = '\x0d' || c = '\x0b' || c = '\x0c'

/-- Python `s.strip()`. -/
def pyStrip (s : String) : String :=
  String.mk (((s.data.dropWhile isPySpace).reverse.dropWhile isPySpace).reverse)

/-- Python `'\n'.join(lines)`. -/
def pyJoinLines (lines : List String) : String :=
  String.intercalate "\n" lines

/-- `listContainsSeq needle hay`: the contiguous sequence `needle` occurs in `hay`
(Python's `needle in hay` on strings). -/
def listContainsSeq (needle : List Char) : List Char → Bool
  | [] => needle.isEmpty
  | c :: rest => needle.isPrefixOf (c :: rest) || listContainsSeq needle rest

/-- Python `needle in hay` for strings. -/
def pyContains (hay needle : String) : Bool :=
  listContainsSeq needle.data hay.data

/-- Python `s.lower()` (ASCII range, as used by the app's color / choice strings). -/
def pyLower (s : String) : String :=
  String.mk (s.data.map Char.toLower)

/-- Python `s.upper()` (ASCII range). -/
def pyUpper (s : String) : String :=
  String.mk (s.data.map Char.toUpper)

/- ### `random.shuffle` (Fisher–Yates), with the generator's `_randbelow` draws
    made explicit as a stream. -/

/-- Python's `x[i], x[j] = x[j], x[i]` on a list; identity when an index is out of
range (the real loop only produces in-range indices). -/
def listSwap {α : Type} (xs : List α) (i j : Nat) : List α :=
  match xs[i]?, xs[j]? with
  | some a, some b => (xs.set i b).set j a
  | _, _ => xs

/-- The loop of CPython's `random.shuffle`:
`for i in reversed(range(1, len(x))): j = _randbelow(i+1); swap x[i] x[j]`.
`randb i n` models the value `_randbelow(n)` returns at loop index `i`
(always `< n` for the real Mersenne-Twister generator). -/
def shuffleSteps {α : Type} (randb : Nat → Nat → Nat) : Nat → List α → List α
  | 0, xs => xs
  | k + 1, xs => shuffleSteps randb k (listSwap xs (k + 1) (randb (k + 1) (k + 2)))

/-- Python `random.shuffle(x)` under the draw stream `randb`. -/
def pyShuffle {α : Type} (randb : Nat → Nat → Nat) (xs : List α) : List α :=
  shuffleSteps randb (xs.length - 1) xs

/- ### `scoring_app.get_videos_from_gcs`: pool construction and per-rater sampling. -/

/-- One element of the `videos` list built by `get_videos_from_gcs`. -/
structure VideoEntry where
  name : String
  model1 : String
  model2 : String
  text1 : String
  text2 : String
  color1 : String
  color2 : String
deriving DecidableEq, Repr

/-- The "Build video list" loop of `get_videos_from_gcs`: keep videos with exactly
two model outputs; colors come from `color_map.get(video_name, {})` with
`.get(model, 'yellow')` / `.get(model, 'red')` defaults.  `videoDict` is the
insertion-ordered `video_dict` (video name ↦ ordered model→steps entries),
`colorMap` the parsed `color_mapping.json`. -/
def buildVideos (colorMap : List (String × List (String × String)))
    (videoDict : List (String × List (String × String))) : List VideoEntry :=
  videoDict.filterMap fun entry =>
    match entry.2 with
    | [(m1, t1), (m2, t2)] =>
      let videoColors := (List.lookup entry.1 colorMap).getD []
      some { name := entry.1, model1 := m1, model2 := m2, text1 := t1, text2 := t2,
             color1 := (List.lookup m1 videoColors).getD "yellow",
             color2 := (List.lookup m2 videoColors).getD "red" }
    | _ => none

/-- The seed-shuffle-prefix step of `get_videos_from_gcs`:
`random.seed(rater_id); random.shuffle(videos); return videos[:3]`.
`seedStream raterId` is the `_randbelow` draw stream of the Mersenne-Twister
generator right after `random.seed(raterId)` (a pure function of the id);
`g0` is the global generator's draw stream *before* the call, which
`random.seed` discards. -/
def getVideosSample (seedStream : String → Nat → Nat → Nat) (g0 : Nat → Nat → Nat)
    (raterId : String) (videos : List VideoEntry) : List VideoEntry :=
  (pyShuffle (seedStream raterId) videos).take 3

/- ### `scoring_app` score ledger (`save_score_to_gcs`) and the binary submit handler. -/

/-- A CSV cell of `scores.csv`: the flat schema mixes strings and numbers
(binary rows store `'binary'` in `coverage` and the numeric score in `order`). -/
inductive Cell where
  | str (s : String)
  | num (q : ℚ)
deriving DecidableEq, Repr

/-- One row of the `scores.csv` ledger (its fixed column schema). -/
structure ScoreRow where
  timestamp : String
  rater_id : String
  video : String
  color : String
  model : String
  mode : String
  coverage : Cell
  order : Cell
  verb : Cell
  specificity : Cell
  hallucination : Cell
  score : Cell
  notes : String
deriving DecidableEq, Repr

/-- The five rubric deduction inputs of detailed mode (integer point losses). -/
structure Deductions where
  coverage : Nat
  order : Nat
  verb : Nat
  specificity : Nat
  hallucination : Nat
deriving DecidableEq, Repr

/-- `total1 = sum(deductions1.values())` in `scoring_app.main`. -/
def totalDeductions (d : Deductions) : Nat :=
  d.coverage + d.order + d.verb + d.specificity + d.hallucination

/-- `score1 = max(0, 100 - total1)` in `scoring_app.main` (detailed mode). -/
def detailedScore (d : Deductions) : Int :=
  max 0 (100 - (totalDeductions d : Int))

/-- The `data` dict built by `save_score_to_gcs` in binary mode: the binary score
goes in the `order` column, `coverage` holds the sentinel `'binary'`, the other
numeric columns hold the empty string. -/
def mkBinaryRow (ts raterId videoName color model : String) (score : ℚ)
    (notes : String) : ScoreRow :=
  { timestamp := ts, rater_id := raterId, video := videoName, color := color,
    model := model, mode := "binary", coverage := .str "binary", order := .num score,
    verb := .str "", specificity := .str "", hallucination := .str "",
    score := .str "", notes := notes }

/-- The `data` dict built by `save_score_to_gcs` in detailed mode. -/
def mkDetailedRow (ts raterId videoName color model : String) (d : Deductions)
    (score : ℚ) (notes : String) : ScoreRow :=
  { timestamp := ts, rater_id := raterId, video := videoName, color := color,
    model := model, mode := "detailed", coverage := .num d.coverage,
    order := .num d.order, verb := .num d.verb, specificity := .num d.specificity,
    hallucination := .num d.hallucination, score := .num score, notes := notes }

/-- `save_score_to_gcs`: load the existing table, build one new row for the given
mode, `pd.concat` it onto the end, store the result.  `ts` stands for
`datetime.now().isoformat()`. -/
def saveScoreToGcs (table : List ScoreRow) (ts videoName raterId color model : String)
    (deductions : Deductions) (score : ℚ) (notes mode : String) : List ScoreRow :=
  let row :=
    if mode = "binary" then mkBinaryRow ts raterId videoName color model score notes
    else mkDetailedRow ts raterId videoName color model deductions score notes
  table ++ [row]

/-- Deductions are not used on the binary path (`{}` is passed). -/
def emptyDeductions : Deductions :=
  { coverage := 0, order := 0, verb := 0, specificity := 0, hallucination := 0 }

/-- The binary branch of `scoring_app.main`'s submit handler:
`0.5/0.5` when the choice mentions "equal", `1/0` when it mentions
`color1.upper()`, else `0/1`. -/
def binaryScores (choice color1 : String) : ℚ × ℚ :=
  if pyContains (pyLower choice) "equal" then (1/2, 1/2)
  else if pyContains choice (pyUpper color1) then (1, 0)
  else (0, 1)

/-- The two `save_score_to_gcs` calls of the binary submit handler: one row per
label for the chosen video, with empty notes. -/
def binarySubmit (table : List ScoreRow) (ts raterId choice : String)
    (v : VideoEntry) : List ScoreRow :=
  let s := binaryScores choice v.color1
  saveScoreToGcs
    (saveScoreToGcs table ts v.name raterId v.color1 v.model1 emptyDeductions s.1 "" "binary")
    ts v.name raterId v.color2 v.model2 emptyDeductions s.2 "" "binary"

/- ### `generate_color_mapping.main`: the blind assignment generator. -/

/-- The per-video body of `generate_color_mapping.main`: if a video has at least
two model outputs, shuffle `["red", "yellow"]` and assign `models[0]` and
`models[1]` the two resulting colors; otherwise emit no mapping. -/
def genColorMapping (randb : Nat → Nat → Nat) (models : List String) :
    Option (List (String × String)) :=
  if 2 ≤ models.length then
    let colors := pyShuffle randb ["red", "yellow"]
    some [(models.getD 0 "", colors.getD 0 ""), (models.getD 1 "", colors.getD 1 "")]
  else none

/- ### `run_inference.run_inference`: markdown stripping and JSON-parse fallback. -/

/-- A Python value as returned by `run_inference` (enough JSON shape for the
result dicts). -/
inductive PyVal where
  | pstr (s : String)
  | pnum (q : ℚ)
  | plist (xs : List PyVal)
  | pdict (fields : List (String × PyVal))

/-- The markdown-fence cleanup in `run_inference`: if the response starts with
three backticks, drop every line starting with three backticks and re-strip. -/
def stripMarkdownFence (s : String) : String :=
  if pyStartsWith s "```" then
    pyStrip (pyJoinLines ((pySplitLines s).filter fun l => !pyStartsWith l "```"))
  else s

/-- `run_inference` after the model call: strip the response text; in numbered-list
mode wrap it as-is; otherwise clean markdown fences, try `json.loads` (modelled by
`parse`), and on failure return the
`{"cutSegments": [], "error": ..., "raw_response": ...}` fallback dict instead of
propagating the exception. -/
def runInferenceResult (parse : String → Option PyVal) (expectJson : Bool)
    (responseText : String) : PyVal :=
  let t := pyStrip responseText
  if !expectJson then
    .pdict [("format", .pstr "numbered_list"), ("steps", .pstr t)]
  else
    let t2 := stripMarkdownFence t
    match parse t2 with
    | some v => v
    | none =>
      .pdict [("cutSegments", .plist []), ("error", .pstr "Failed to parse JSON"),
              ("raw_response", .pstr t2)]

/- ### `visualize_results`: binary aggregation, and `analyze_scores`: overall stats. -/

/-- One row of the binary-mode slice of the ledger as `visualize_results` sees it
(after `binary_df['score'] = pd.to_numeric(binary_df['order'])`). -/
structure BinaryRow where
  model : String
  score : ℚ
deriving DecidableEq, Repr

/-- `total_comparisons = len(binary_df) // 2` in `analyze_binary_results`. -/
def totalComparisons (rows : List BinaryRow) : Nat :=
  rows.length / 2

/-- `binary_df[binary_df['model'] == m]['score'].sum()` in `analyze_binary_results`. -/
def modelScoreSum (rows : List BinaryRow) (m : String) : ℚ :=
  ((rows.filter fun r => r.model == m).map fun r => r.score).sum

/-- `ties = total_comparisons - (finetuned_wins + baseline_wins)`. -/
def tiesReported (rows : List BinaryRow) : ℚ :=
  (totalComparisons rows : ℚ) -
    (modelScoreSum rows "finetuned" + modelScoreSum rows "baseline")

/-- One binary comparison's outcome for an (item, rater) pair. -/
inductive Outcome where
  | ftWin
  | blWin
  | tie
deriving DecidableEq, Repr

/-- The two ledger rows one comparison emits: `(1, 0)` for a decisive finetuned
win, `(0, 1)` for a decisive baseline win, `(0.5, 0.5)` for a tie. -/
def outcomeRows : Outcome → List BinaryRow
  | .ftWin => [{ model := "finetuned", score := 1 }, { model := "baseline", score := 0 }]
  | .blWin => [{ model := "finetuned", score := 0 }, { model := "baseline", score := 1 }]
  | .tie => [{ model := "finetuned", score := 1/2 }, { model := "baseline", score := 1/2 }]

/-- A well-formed binary ledger slice: the concatenated row pairs of a sequence of
comparisons. -/
def binaryTable (outcomes : List Outcome) : List BinaryRow :=
  outcomes.flatMap outcomeRows

/-- `countOutcome os o` = how many comparisons in `os` had outcome `o`. -/
def countOutcome (outcomes : List Outcome) (o : Outcome) : Nat :=
  outcomes.count o

/-- What `visualize_results.main` does with the binary slice. -/
inductive VizResult where
  | noData
  | analyzed (total : Nat) (ftWins blWins ties : ℚ)
deriving Repr

/-- `visualize_results.main`: `if len(binary_df) == 0: print("No binary comparison
data found!"); return`, else run `analyze_binary_results`. -/
def vizMain (binaryDf : List BinaryRow) : VizResult :=
  if binaryDf.length = 0 then .noData
  else
    .analyzed (totalComparisons binaryDf)
      (modelScoreSum binaryDf "finetuned") (modelScoreSum binaryDf "baseline")
      (tiesReported binaryDf)

/-- `np.mean(xs)`: `none` models the NaN numpy returns on an empty array. -/
def npMean (xs : List ℚ) : Option ℚ :=
  if xs.length = 0 then none else some (xs.sum / xs.length)

/-- The "OVERALL STATISTICS" block of `analyze_scores.analyze_paired_comparison`
over the `final_score` column: it runs unconditionally, with no zero-row guard.
`none` models NaN (for the mean) and the `ValueError` `np.min`/`np.max` raise on
an empty array. -/
structure OverallStats where
  meanScore : Option ℚ
  minScore : Option ℚ
  maxScore : Option ℚ
deriving DecidableEq, Repr

/-- The overall-statistics computation of `analyze_paired_comparison`. -/
def analyzeOverall (finalScores : List ℚ) : OverallStats :=
  { meanScore := npMean finalScores,
    minScore := finalScores.min?,
    maxScore := finalScores.max? }

/-- A concrete video entry, for instantiating claims. -/
def vSampleA : VideoEntry :=
  { name := "video_a", model1 := "finetuned", model2 := "baseline",
    text1 := "1. step", text2 := "1. step", color1 := "yellow", color2 := "red" }

/-- A second concrete video entry, distinct from `vSampleA`. -/
def vSampleB : VideoEntry :=
  { name := "video_b", model1 := "finetuned", model2 := "baseline",
    text1 := "1. other", text2 := "1. other", color1 := "red", color2 := "yellow" }

/- ### Helper lemmas: `random.shuffle` produces a permutation of its input. -/

theorem cons_set_perm {α : Type} : ∀ (xs : List α) (k : Nat) (a b : α),
    xs[k]? = some b → (b :: xs.set k a).Perm (a :: xs)
  | [], k, a, b, h => by simp at h
  | x :: xs, 0, a, b, h => by
    simp only [List.getElem?_cons_zero, Option.some.injEq] at h
    subst h
    simpa using List.Perm.swap a x xs
  | x :: xs, k + 1, a, b, h => by
    simp only [List.getElem?_cons_succ] at h
    have ih := cons_set_perm xs k a b h
    have h1 : (b :: (x :: xs).set (k + 1) a) = b :: x :: xs.set k a := by simp
    rw [h1]
    have h2 : (b :: x :: xs.set k a).Perm (x :: b :: xs.set k a) := List.Perm.swap x b _
    have h3 : (x :: b :: xs.set k a).Perm (x :: a :: xs) := ih.cons x
    have h4 : (x :: a :: xs).Perm (a :: x :: xs) := List.Perm.swap a x xs
    exact (h2.trans h3).trans h4

theorem set_self_of_getElem {α : Type} : ∀ (xs : List α) (k : Nat) (b : α),
    xs[k]? = some b → xs.set k b = xs
  | [], k, b, h => by simp at h
  | x :: xs, 0, b, h => by
    simp only [List.getElem?_cons_zero, Option.some.injEq] at h
    simp [h]
  | x :: xs, k + 1, b, h => by
    simp only [List.getElem?_cons_succ] at h
    simp [set_self_of_getElem xs k b h]

theorem listSwap_perm {α : Type} (xs : List α) (i j : Nat) : (listSwap xs i j).Perm xs := by
  unfold listSwap
  cases hi : xs[i]? with
  | none => simp
  | some a =>
    cases hj : xs[j]? with
    | none => simp
    | some b =>
      simp only
      by_cases hij : i = j
      · subst hij
        rw [hi] at hj
        cases hj
        rw [List.set_set, set_self_of_getElem xs i a hi]
      · have hj' : (xs.set i b)[j]? = some b := by
          rw [List.getElem?_set_ne hij, hj]
        have h1 := cons_set_perm (xs.set i b) j a b hj'
        have h2 := cons_set_perm xs i b a hi
        exact (h1.trans h2).cons_inv

theorem shuffleSteps_perm {α : Type} (randb : Nat → Nat → Nat) :
    ∀ (k : Nat) (xs : List α), (shuffleSteps randb k xs).Perm xs
  | 0, xs => List.Perm.refl xs
  | k + 1, xs =>
    (shuffleSteps_perm randb k _).trans (listSwap_perm xs (k + 1) (randb (k + 1) (k + 2)))

theorem pyShuffle_perm {α : Type} (randb : Nat → Nat → Nat) (xs : List α) :
    (pyShuffle randb xs).Perm xs :=
  shuffleSteps_perm randb (xs.length - 1) xs

theorem pyShuffle_pair {α : Type} (randb : Nat → Nat → Nat) (a b : α) :
    pyShuffle randb [a, b] = [a, b] ∨ pyShuffle randb [a, b] = [b, a] := by
  have h : pyShuffle randb [a, b] = listSwap [a, b] 1 (randb 1 2) := rfl
  rw [h]
  rcases randb 1 2 with _ | _ | k
  · right; rfl
  · left; rfl
  · left; rfl

/- ### Helper lemmas about the binary submit handler. -/

theorem binaryScores_cases (choice c1 : String) :
    binaryScores choice c1 = (1, 0) ∨ binaryScores choice c1 = (0, 1) ∨
      binaryScores choice c1 = (1/2, 1/2) := by
  unfold binaryScores
  split
  · right; right; rfl
  · split
    · left; rfl
    · right; left; rfl

theorem binarySubmit_eq (table : List ScoreRow) (ts raterId choice : String) (v : VideoEntry) :
    binarySubmit table ts raterId choice v =
      table ++
        [mkBinaryRow ts raterId v.name v.color1 v.model1 (binaryScores choice v.color1).1 "",
         mkBinaryRow ts raterId v.name v.color2 v.model2 (binaryScores choice v.color1).2 ""] := by
  simp [binarySubmit, saveScoreToGcs]

/- ### Claim theorems. -/

/-- C2: every binary-mode submission appends exactly two Judgment rows for the
(item, rater) pair, whose scores sum to exactly 1: `(1, 0)` or `(0, 1)` for a
decisive choice, `(0.5, 0.5)` for a tie — never summing to 0 and never above 1. -/
theorem binary_pair_scores_sum_to_one (table : List ScoreRow) (ts raterId choice : String)
    (v : VideoEntry) :
    ∃ s1 s2 : ℚ,
      binarySubmit table ts raterId choice v =
        table ++ [mkBinaryRow ts raterId v.name v.color1 v.model1 s1 "",
                  mkBinaryRow ts raterId v.name v.color2 v.model2 s2 ""] ∧
      s1 + s2 = 1 ∧
      ((s1, s2) = (1, 0) ∨ (s1, s2) = (0, 1) ∨ (s1, s2) = (1/2, 1/2)) := by
  refine ⟨(binaryScores choice v.color1).1, (binaryScores choice v.color1).2,
    binarySubmit_eq table ts raterId choice v, ?_, ?_⟩
  · rcases binaryScores_cases choice v.color1 with h | h | h <;> rw [h] <;> norm_num
  · rcases binaryScores_cases choice v.color1 with h | h | h <;> rw [h] <;> simp

/-- C7: the categorical (detailed-mode) derived score is 100 minus the summed
deductions, floored at 0. -/
theorem detailed_score_floor_formula (d : Deductions) :
    ((totalDeductions d : Int) ≤ 100 → detailedScore d = 100 - (totalDeductions d : Int)) ∧
    (100 < (totalDeductions d : Int) → detailedScore d = 0) := by
  unfold detailedScore
  omega

/-- C7 witness: deductions coverage 5, order 0, verb 3, specificity 0,
hallucination 0 give score 92. -/
theorem detailed_score_floor_formula_w :
    (totalDeductions ⟨5, 0, 3, 0, 0⟩ : Int) ≤ 100 ∧ detailedScore ⟨5, 0, 3, 0, 0⟩ = 92 :=
  ⟨by decide, ((detailed_score_floor_formula ⟨5, 0, 3, 0, 0⟩).1 (by decide)).trans (by decide)⟩

/-- C8: the ledger append never fails on a conflicting row: it always extends the
table by exactly one new row, leaving every stored row in place, and a repeated
identical submission persists both copies (no upsert, no dedup). -/
theorem ledger_append_no_conflict (table : List ScoreRow)
    (ts videoName raterId color model : String) (d : Deductions) (score : ℚ)
    (notes mode : String) :
    ∃ row : ScoreRow,
      saveScoreToGcs table ts videoName raterId color model d score notes mode =
        table ++ [row] ∧
      (saveScoreToGcs table ts videoName raterId color model d score notes mode).length =
        table.length + 1 ∧
      saveScoreToGcs
          (saveScoreToGcs table ts videoName raterId color model d score notes mode)
          ts videoName raterId color model d score notes mode = table ++ [row, row] := by
  refine ⟨_, rfl, ?_, ?_⟩
  · simp [saveScoreToGcs]
  · simp [saveScoreToGcs]

/-- C5: in JSON mode, `run_inference` first strips markdown code fences and, when
parsing the cleaned response still fails, returns the error-tagged placeholder
dict with an empty `cutSegments` list instead of raising the parse exception. -/
theorem inference_parse_fallback_shape (parse : String → Option PyVal) (s : String)
    (h : parse (stripMarkdownFence (pyStrip s)) = none) :
    runInferenceResult parse true s =
      .pdict [("cutSegments", .plist []), ("error", .pstr "Failed to parse JSON"),
              ("raw_response", .pstr (stripMarkdownFence (pyStrip s)))] := by
  simp [runInferenceResult, h]

/-- C5 witness: a fenced, unparseable response yields the placeholder whose raw
text is the de-fenced body. -/
theorem inference_parse_fallback_shape_w :
    (fun _ : String => (none : Option PyVal))
        (stripMarkdownFence (pyStrip "```json\nnot json\n```")) = none ∧
    runInferenceResult (fun _ => none) true "```json\nnot json\n```" =
      .pdict [("cutSegments", .plist []), ("error", .pstr "Failed to parse JSON"),
              ("raw_response", .pstr "not json")] :=
  ⟨rfl, (inference_parse_fallback_shape (fun _ => none) _ rfl).trans rfl⟩

/-- C6 (amended): the binary-results visualizer reports an explicit no-data result
on a zero-row table, computing no statistics. -/
theorem viz_empty_reports_no_data (binaryDf : List BinaryRow) (h : binaryDf.length = 0) :
    vizMain binaryDf = .noData := by
  simp [vizMain, h]

/-- C6 witness: the empty binary table. -/
theorem viz_empty_reports_no_data_w :
    ([] : List BinaryRow).length = 0 ∧ vizMain [] = .noData :=
  ⟨rfl, viz_empty_reports_no_data [] rfl⟩

/-- C6 counterexample: the paired-comparison analyzer has no zero-row guard — on
the empty table its overall statistics are the empty-array results (`none`
models numpy's NaN mean and the min/max reduction error), not a no-data report. -/
theorem analyze_scores_empty_nan_cex :
    (analyzeOverall []).meanScore = none ∧ (analyzeOverall []).minScore = none ∧
      (analyzeOverall []).maxScore = none :=
  ⟨rfl, rfl, rfl⟩

/-- C9: a video absent from the loaded blind-assignment map gets the fixed default
labels — `'yellow'` for its first listed model and `'red'` for its second — and a
binary submission for it records its two judgment rows under exactly these
default labels. -/
theorem missing_color_map_defaults (colorMap : List (String × List (String × String)))
    (vname m1 t1 m2 t2 : String) (table : List ScoreRow) (ts raterId choice : String)
    (h : List.lookup vname colorMap = none) :
    buildVideos colorMap [(vname, [(m1, t1), (m2, t2)])] =
      [{ name := vname, model1 := m1, model2 := m2, text1 := t1, text2 := t2,
         color1 := "yellow", color2 := "red" }] ∧
    binarySubmit table ts raterId choice
        { name := vname, model1 := m1, model2 := m2, text1 := t1, text2 := t2,
          color1 := "yellow", color2 := "red" } =
      table ++
        [mkBinaryRow ts raterId vname "yellow" m1 (binaryScores choice "yellow").1 "",
         mkBinaryRow ts raterId vname "red" m2 (binaryScores choice "yellow").2 ""] := by
  constructor
  · simp [buildVideos, h]
  · exact binarySubmit_eq table ts raterId choice _

/-- C9 witness: a concrete map that lacks the video name. -/
theorem missing_color_map_defaults_w :
    List.lookup "video_a" [("other_video", [("finetuned", "red")])] =
      (none : Option (List (String × String))) ∧
    (buildVideos [("other_video", [("finetuned", "red")])]
        [("video_a", [("finetuned", "1. step"), ("baseline", "1. step")])] =
      [{ name := "video_a", model1 := "finetuned", model2 := "baseline",
         text1 := "1. step", text2 := "1. step", color1 := "yellow", color2 := "red" }] ∧
    binarySubmit [] "t0" "rater_1000" "Both equal"
        { name := "video_a", model1 := "finetuned", model2 := "baseline",
          text1 := "1. step", text2 := "1. step", color1 := "yellow", color2 := "red" } =
      [] ++
        [mkBinaryRow "t0" "rater_1000" "video_a" "yellow" "finetuned"
           (binaryScores "Both equal" "yellow").1 "",
         mkBinaryRow "t0" "rater_1000" "video_a" "red" "baseline"
           (binaryScores "Both equal" "yellow").2 ""]) :=
  ⟨rfl, missing_color_map_defaults _ "video_a" "finetuned" "1. step" "baseline" "1. step"
    [] "t0" "rater_1000" "Both equal" rfl⟩

/-- C1 (amended): the rater sampler is deterministic for a fixed identifier and a
fixed in-memory pool order — in particular the global generator's state before the
call is irrelevant, since `random.seed(rater_id)` overwrites it, so a reloaded
session resamples identically. -/
theorem sample_deterministic_same_order (seedStream : String → Nat → Nat → Nat)
    (g1 g2 : Nat → Nat → Nat) (raterId : String) (pool : List VideoEntry) :
    getVideosSample seedStream g1 raterId pool = getVideosSample seedStream g2 raterId pool :=
  rfl

/-- C1 counterexample: the same identifier over the same pool elements in a
different in-memory order yields a different sample — the shuffle permutes
positions, not values, so order-independence fails. -/
theorem sample_order_dependence_cex :
    List.Perm [vSampleA, vSampleB] [vSampleB, vSampleA] ∧
    getVideosSample (fun _ _ _ => 0) (fun _ _ => 0) "rater_1000" [vSampleA, vSampleB] ≠
      getVideosSample (fun _ _ _ => 0) (fun _ _ => 0) "rater_1000" [vSampleB, vSampleA] := by
  constructor
  · decide
  · decide

/-- C10: the rater sampler returns the first 3 elements of a permutation of the
pool: its length is `min 3 |pool|`, its elements are pairwise distinct (for the
duplicate-free pools `get_videos_from_gcs` builds) and all drawn from the pool,
and a pool smaller than the sample constant is returned in full. -/
theorem sampler_prefix_of_perm (seedStream : String → Nat → Nat → Nat)
    (g : Nat → Nat → Nat) (raterId : String) (pool : List VideoEntry)
    (hnd : pool.Nodup) :
    (getVideosSample seedStream g raterId pool).length = min 3 pool.length ∧
    (getVideosSample seedStream g raterId pool).Nodup ∧
    getVideosSample seedStream g raterId pool ⊆ pool ∧
    ∃ q : List VideoEntry, pool.Perm q ∧ getVideosSample seedStream g raterId pool = q.take 3 := by
  have hperm := pyShuffle_perm (seedStream raterId) pool
  refine ⟨?_, ?_, ?_, pyShuffle (seedStream raterId) pool, hperm.symm, rfl⟩
  · simp [getVideosSample, hperm.length_eq]
  · exact ((List.take_sublist 3 _).nodup) (hperm.nodup_iff.mpr hnd)
  · exact ((List.take_sublist 3 _).subset).trans hperm.subset

/-- C10 witness: a concrete two-element pool is returned in full (in shuffled
order) with no duplicates. -/
theorem sampler_prefix_of_perm_w :
    ([vSampleA, vSampleB] : List VideoEntry).Nodup ∧
    ((getVideosSample (fun _ _ _ => 0) (fun _ _ => 0) "rater_1000" [vSampleA, vSampleB]).length =
        min 3 ([vSampleA, vSampleB] : List VideoEntry).length ∧
    (getVideosSample (fun _ _ _ => 0) (fun _ _ => 0) "rater_1000" [vSampleA, vSampleB]).Nodup ∧
    getVideosSample (fun _ _ _ => 0) (fun _ _ => 0) "rater_1000" [vSampleA, vSampleB] ⊆
      [vSampleA, vSampleB] ∧
    ∃ q : List VideoEntry, ([vSampleA, vSampleB] : List VideoEntry).Perm q ∧
      getVideosSample (fun _ _ _ => 0) (fun _ _ => 0) "rater_1000" [vSampleA, vSampleB] =
        q.take 3) :=
  ⟨by decide, sampler_prefix_of_perm (fun _ _ _ => 0) (fun _ _ => 0) "rater_1000"
    [vSampleA, vSampleB] (by decide)⟩

/- ### Helper lemmas for the binary aggregation. -/

theorem binaryTable_cons (o : Outcome) (os : List Outcome) :
    binaryTable (o :: os) = outcomeRows o ++ binaryTable os := by
  simp [binaryTable]

theorem binaryTable_length (outcomes : List Outcome) :
    (binaryTable outcomes).length = 2 * outcomes.length := by
  induction outcomes with
  | nil => rfl
  | cons o os ih =>
    rw [binaryTable_cons, List.length_append, ih]
    cases o <;> simp [outcomeRows] <;> ring

theorem modelScoreSum_append (a b : List BinaryRow) (m : String) :
    modelScoreSum (a ++ b) m = modelScoreSum a m + modelScoreSum b m := by
  simp [modelScoreSum]

theorem modelScoreSum_binaryTable_ft (outcomes : List Outcome) :
    modelScoreSum (binaryTable outcomes) "finetuned" =
      (countOutcome outcomes .ftWin : ℚ) + (countOutcome outcomes .tie : ℚ) / 2 := by
  induction outcomes with
  | nil => simp [binaryTable, modelScoreSum, countOutcome]
  | cons o os ih =>
    rw [binaryTable_cons, modelScoreSum_append, ih]
    cases o <;>
      simp [outcomeRows, modelScoreSum, countOutcome, List.count_cons] <;> push_cast <;>
      ring_nf

theorem modelScoreSum_binaryTable_bl (outcomes : List Outcome) :
    modelScoreSum (binaryTable outcomes) "baseline" =
      (countOutcome outcomes .blWin : ℚ) + (countOutcome outcomes .tie : ℚ) / 2 := by
  induction outcomes with
  | nil => simp [binaryTable, modelScoreSum, countOutcome]
  | cons o os ih =>
    rw [binaryTable_cons, modelScoreSum_append, ih]
    cases o <;>
      simp [outcomeRows, modelScoreSum, countOutcome, List.count_cons] <;> push_cast <;>
      ring_nf

theorem countOutcome_sum (outcomes : List Outcome) :
    countOutcome outcomes .ftWin + countOutcome outcomes .blWin +
      countOutcome outcomes .tie = outcomes.length := by
  induction outcomes with
  | nil => rfl
  | cons o os ih =>
    cases o <;> simp [countOutcome, List.count_cons] at * <;> omega

/-- C3 (amended): on a well-formed binary table the aggregator reports total
comparisons = rows ÷ 2 = number of comparisons, win totals
`winsA = w + t/2` and `winsB = l + t/2` (score sums, so each tie adds ½ to both),
and a tie count of `total − (winsA + winsB)`, which on such a table is always 0 —
equal to t only in the tie-free case. -/
theorem binary_aggregation_totals (outcomes : List Outcome) :
    totalComparisons (binaryTable outcomes) = outcomes.length ∧
    modelScoreSum (binaryTable outcomes) "finetuned" =
      (countOutcome outcomes .ftWin : ℚ) + (countOutcome outcomes .tie : ℚ) / 2 ∧
    modelScoreSum (binaryTable outcomes) "baseline" =
      (countOutcome outcomes .blWin : ℚ) + (countOutcome outcomes .tie : ℚ) / 2 ∧
    tiesReported (binaryTable outcomes) = 0 := by
  have htot : totalComparisons (binaryTable outcomes) = outcomes.length := by
    simp [totalComparisons, binaryTable_length]
  refine ⟨htot, modelScoreSum_binaryTable_ft outcomes, modelScoreSum_binaryTable_bl outcomes, ?_⟩
  have hsum := countOutcome_sum outcomes
  rw [tiesReported, htot, modelScoreSum_binaryTable_ft, modelScoreSum_binaryTable_bl]
  have : (countOutcome outcomes .ftWin : ℚ) + countOutcome outcomes .blWin +
      countOutcome outcomes .tie = outcomes.length := by
    exact_mod_cast hsum
  linarith

/-- C3 counterexample: a table holding one tied comparison (w = 0, l = 0, t = 1):
the reported finetuned win total is ½, not w = 0, and the reported tie count is
0, not t = 1. -/
theorem binary_tie_aggregation_cex :
    modelScoreSum (binaryTable [Outcome.tie]) "finetuned" = 1/2 ∧
    (1 : ℚ)/2 ≠ 0 ∧
    tiesReported (binaryTable [Outcome.tie]) = 0 ∧
    (0 : ℚ) ≠ 1 := by
  refine ⟨?_, by norm_num, ?_, by norm_num⟩
  · simp [binaryTable, outcomeRows, modelScoreSum]
  · simp [tiesReported, binaryTable, outcomeRows, modelScoreSum, totalComparisons]
    norm_num

/-- C4 (amended): for an item with exactly two (distinct) producers, the blind
assignment generator emits a bijection between the producers and the two labels:
each producer is labeled, the labels are the two colors, and no label repeats. -/
theorem color_mapping_pair_bijection (randb : Nat → Nat → Nat) (m1 m2 : String)
    (h : m1 ≠ m2) :
    ∃ c1 c2 : String,
      genColorMapping randb [m1, m2] = some [(m1, c1), (m2, c2)] ∧
      List.lookup m1 [(m1, c1), (m2, c2)] = some c1 ∧
      List.lookup m2 [(m1, c1), (m2, c2)] = some c2 ∧
      c1 ≠ c2 ∧
      ((c1 = "red" ∧ c2 = "yellow") ∨ (c1 = "yellow" ∧ c2 = "red")) := by
  have hne : (m2 == m1) = false := by
    simp [beq_iff_eq]
    exact fun hc => h hc.symm
  rcases pyShuffle_pair randb "red" "yellow" with hs | hs
  · refine ⟨"red", "yellow", ?_, ?_, ?_, by decide, Or.inl ⟨rfl, rfl⟩⟩
    · simp [genColorMapping, hs]
    · simp [List.lookup]
    · simp [List.lookup, hne]
  · refine ⟨"yellow", "red", ?_, ?_, ?_, by decide, Or.inr ⟨rfl, rfl⟩⟩
    · simp [genColorMapping, hs]
    · simp [List.lookup]
    · simp [List.lookup, hne]

/-- C4 witness: two concrete distinct producers receive the two distinct labels. -/
theorem color_mapping_pair_bijection_w :
    ("model_a" : String) ≠ "model_b" ∧
    (∃ c1 c2 : String,
      genColorMapping (fun _ _ => 0) ["model_a", "model_b"] =
        some [("model_a", c1), ("model_b", c2)] ∧
      List.lookup "model_a" [("model_a", c1), ("model_b", c2)] = some c1 ∧
      List.lookup "model_b" [("model_a", c1), ("model_b", c2)] = some c2 ∧
      c1 ≠ c2 ∧
      ((c1 = "red" ∧ c2 = "yellow") ∨ (c1 = "yellow" ∧ c2 = "red"))) :=
  ⟨by decide, color_mapping_pair_bijection (fun _ _ => 0) "model_a" "model_b" (by decide)⟩

/-- C4 counterexample: an item listing three producers still passes the `>= 2`
check, but only the first two get labels — the third producer is left unlabeled,
so the emitted mapping is not a bijection on the item's producers. -/
theorem color_mapping_extra_producer_cex :
    (genColorMapping (fun _ _ => 0) ["model_a", "model_b", "model_c"]).isSome = true ∧
    List.lookup "model_c"
      ((genColorMapping (fun _ _ => 0) ["model_a", "model_b", "model_c"]).getD []) = none := by
  constructor
  · decide
  · decide

end Scorer
